import Mathlib

/-!
Shallow embedding of the Tomcat access-log correlation and sliding-window
eviction engine of `TomcatLib.py` (class `TomcatWatcher`), together with the
instantiation choices made by the two entry scripts.  Machine strings are modelled as
`List Char` processing on `String.data`; microsecond timestamps are `Int`.

The file `Utils.py` of the repository (providing `RecordTable`, `parse_utc_time_usecs`
and `current_utc_time_usecs`) is not part of the given sources; those pieces
are modelled from the specification (sections 4.4 and 2, Timestamp Source) and
are marked as such in their doc comments.  Everything else is translated from
`TomcatLib.py` directly.
-/

/-- Python `str.isspace` characters relevant to `\s` / `\S` in the ASCII range,
used by the regex character classes and by `str.strip`. -/
def isPySpace (c : Char) : Bool :=
  c = ' ' || c = '\t' || c = '\n' || c = '\r' || c = '\x0b' || c = '\x0c'

/-- Python `line.strip()`: remove leading and trailing whitespace. -/
def pyStrip (s : String) : String :=
  String.mk (((s.data.dropWhile isPySpace).reverse.dropWhile isPySpace).reverse)

/-- Match a literal string prefix (a run of literal regex characters), returning
the remainder on success. -/
def dropLit : List Char → List Char → Option (List Char)
  | [], cs => some cs
  | _ :: _, [] => none
  | p :: ps, c :: cs => if c = p then dropLit ps cs else none

/-- Regex fragment `(\S+) ` as it occurs in the patterns of `TomcatLib.py`: a maximal
nonempty run of non-whitespace characters followed by a literal space.  Because
`\S+` cannot match the following literal space, greedy matching with
backtracking is equivalent to taking the maximal run. -/
def pTokSp (cs : List Char) : Option (List Char × List Char) :=
  let tok := cs.takeWhile (fun c => !isPySpace c)
  let rest := cs.dropWhile (fun c => !isPySpace c)
  if tok.isEmpty then none
  else
    match rest with
    | ' ' :: rest2 => some (tok, rest2)
    | _ => none

/-- Regex fragment `(\d+)` followed by a non-digit (or end): maximal nonempty
digit run, returned with the remainder. -/
def pDigits (cs : List Char) : Option (List Char × List Char) :=
  let tok := cs.takeWhile Char.isDigit
  let rest := cs.dropWhile Char.isDigit
  if tok.isEmpty then none else some (tok, rest)

/-- Python `int()` on a nonempty digit string. -/
def digitsToInt (cs : List Char) : Int :=
  Int.ofNat (cs.foldl (fun a c => a * 10 + (c.toNat - 48)) 0)

/-- Python `sub in s` substring containment, used for `'xception' in line`. -/
def listContainsSub (pat : List Char) : List Char → Bool
  | [] => pat.isEmpty
  | c :: cs => pat.isPrefixOf (c :: cs) || listContainsSub pat cs

/-- Python `str.replace(old, '')` for a nonempty pattern `p :: ps`: scan left to
right, removing each non-overlapping occurrence and continuing after it.  The
fuel argument (instantiated with the list length, which bounds the number of
steps) keeps the recursion structural so the kernel can evaluate it. -/
def removeSubFuel (p : Char) (ps : List Char) : Nat → List Char → List Char
  | 0, _ => []
  | _, [] => []
  | fuel + 1, c :: rest =>
    if (p :: ps).isPrefixOf (c :: rest) then removeSubFuel p ps fuel (rest.drop ps.length)
    else c :: removeSubFuel p ps fuel rest

/-- Python `str.replace(old, '')` for a nonempty pattern `p :: ps`. -/
def removeSub (p : Char) (ps : List Char) (cs : List Char) : List Char :=
  removeSubFuel p ps cs.length cs

/-- Python `id_raw.replace('-ka', '')` from `TomcatWatcher.parse_log_line`:
removes every occurrence of the substring `-ka`, not only a trailing suffix. -/
def replaceKa (cs : List Char) : List Char :=
  removeSub '-' ['k', 'a'] cs

/-- Python `s.split(':')` (single-character separator, keeping empty parts). -/
def splitOnChar (sep : Char) : List Char → List (List Char)
  | [] => [[]]
  | c :: rest =>
    match splitOnChar sep rest with
    | [] => if c = sep then [[], []] else [[c]]
    | g :: gs => if c = sep then [] :: g :: gs else (c :: g) :: gs

/-- Python `':'.join(parts)`. -/
def joinColon : List (List Char) → List Char
  | [] => []
  | [g] => g
  | g :: gs => g ++ ':' :: joinColon gs

/-- Result of `regex_general`:
`^(?P<servlet>\S+) (?P<timestamp>(?:\S+ ){4})id=(?P<key>\S+) (?P<payload>.*)`.
The `timestamp` group keeps its trailing spaces exactly as the regex captures
them. -/
structure GeneralMatch where
  servlet : String
  timestamp : String
  key : String
  payload : String
deriving DecidableEq

/-- `regex_general.match(line)`.  Each `\S+ ` fragment deterministically takes a
maximal non-whitespace token followed by one literal space (see `pTokSp`). -/
def matchGeneral (line : String) : Option GeneralMatch := do
  let cs := line.data
  let (servlet, r1) ← pTokSp cs
  let (t1, r2) ← pTokSp r1
  let (t2, r3) ← pTokSp r2
  let (t3, r4) ← pTokSp r3
  let (t4, r5) ← pTokSp r4
  let r6 ← dropLit "id=".data r5
  let (key, r7) ← pTokSp r6
  some { servlet := String.mk servlet,
         timestamp := String.mk (t1 ++ ' ' :: t2 ++ ' ' :: t3 ++ ' ' :: t4 ++ [' ']),
         key := String.mk key,
         payload := String.mk r7 }

/-- Captures of `regex_start`: `servlet_version:(?P<version>\S+) start
threads:(?P<threads_start>\d+) query (?P<query>\S+) raddr (?P<who>\S+)
frontier-id: (?P<complement>.*)`. -/
structure StartMatch where
  version : String
  threads_start : Int
  query : String
  who : String
  complement : String
deriving DecidableEq

/-- `regex_start.match(payload)`. -/
def matchStart (payload : String) : Option StartMatch := do
  let r1 ← dropLit "servlet_version:".data payload.data
  let (ver, r2) ← pTokSp r1
  let r3 ← dropLit "start threads:".data r2
  let (n, r4) ← pDigits r3
  let r5 ← dropLit " query ".data r4
  let (q, r6) ← pTokSp r5
  let r7 ← dropLit "raddr ".data r6
  let (who, r8) ← pTokSp r7
  let r9 ← dropLit "frontier-id: ".data r8
  some { version := String.mk ver, threads_start := digitsToInt n,
         query := String.mk q, who := String.mk who, complement := String.mk r9 }

/-- `regex_dbacq.match`: `DB connection acquired active=(\d+) msecs=(\d+)`. -/
def matchDbacq (payload : String) : Option (Int × Int) := do
  let r1 ← dropLit "DB connection acquired active=".data payload.data
  let (a, r2) ← pDigits r1
  let r3 ← dropLit " msecs=".data r2
  let (m, _) ← pDigits r3
  some (digitsToInt a, digitsToInt m)

/-- `regex_dbfin.match`: `DB query finished msecs=(\d+)`. -/
def matchDbfin (payload : String) : Option Int := do
  let r1 ← dropLit "DB query finished msecs=".data payload.data
  let (m, _) ← pDigits r1
  some (digitsToInt m)

/-- `regex_rowssize.match`: `rows=(\d+), full size=(\d+)`. -/
def matchRowssize (payload : String) : Option (Int × Int) := do
  let r1 ← dropLit "rows=".data payload.data
  let (n, r2) ← pDigits r1
  let r3 ← dropLit ", full size=".data r2
  let (s, _) ← pDigits r3
  some (digitsToInt n, digitsToInt s)

/-- `regex_threads.match`: `stop threads=(\d+) msecs=(\d+)`. -/
def matchThreads (payload : String) : Option (Int × Int) := do
  let r1 ← dropLit "stop threads=".data payload.data
  let (t, r2) ← pDigits r1
  let r3 ← dropLit " msecs=".data r2
  let (m, _) ← pDigits r3
  some (digitsToInt t, digitsToInt m)

/-- `regex_error.match`: `Error (?P<error>.*)`. -/
def matchError (payload : String) : Option String := do
  let r1 ← dropLit "Error ".data payload.data
  some (String.mk r1)

/-- `regex_client.match`: `Client (?P<client>.*)`. -/
def matchClient (payload : String) : Option String := do
  let r1 ← dropLit "Client ".data payload.data
  some (String.mk r1)

/-- `regex_sql.match`: `SQL (?P<sql>.*)`. -/
def matchSql (payload : String) : Option String := do
  let r1 ← dropLit "SQL ".data payload.data
  some (String.mk r1)

/-- `regex_acq.match`: `Acquiring DB (?P<dbacq>.*)`. -/
def matchAcq (payload : String) : Option String := do
  let r1 ← dropLit "Acquiring DB ".data payload.data
  some (String.mk r1)

/-- `regex_exe.match`: `Executing DB query` (no captures). -/
def matchExe (payload : String) : Bool :=
  (dropLit "Executing DB query".data payload.data).isSome

/-- `regex_kaacq.match`: `DB acquire sent keepalive (?P<kaacq>\d+)`. -/
def matchKaacq (payload : String) : Option Int := do
  let r1 ← dropLit "DB acquire sent keepalive ".data payload.data
  let (n, _) ← pDigits r1
  some (digitsToInt n)

/-- One reconstructed request, holding the fields listed in
`TomcatWatcher.record_variables`.  Python records are dicts whose fields are
optional until populated; `none` models an absent field.  The `client` field is
tested by `parse_log_line` (`'client' in record`) but is never written by any
code path. -/
structure Record where
  servlet : Option String := none
  version : Option String := none
  query : Option String := none
  who : Option String := none
  fid : Option String := none
  forward : Option String := none
  via : Option String := none
  state : Option String := none
  finish_mode : Option String := none
  threads_start : Option Int := none
  threads_stop : Option Int := none
  msecs_acq : Option Int := none
  msecs_finish : Option Int := none
  msecs_stop : Option Int := none
  rows : Option Int := none
  size : Option Int := none
  active_acq : Option Int := none
  keepalives : Option Int := none
  time_start : Option Int := none
  time_stop : Option Int := none
  error : Option String := none
  sql : Option String := none
  dbacq : Option String := none
  client : Option String := none
deriving DecidableEq

/-- Modelled from the spec: `RecordTable` lives in `Utils.py`, which is not
among the given sources.  Section 4.4 specifies it as a mapping from key to
record with insert, partial update, point read, membership test and delete;
we model it as an association list with unique keys. -/
abbrev RecordTable : Type := List (String × Record)

/-- Modelled from the spec: point read (first entry with the given key). -/
def RecordTable.find : RecordTable → String → Option Record
  | [], _ => none
  | (k, r) :: rest, key => if k = key then some r else RecordTable.find rest key

/-- Modelled from the spec: `delete(key)` tolerates an absent key (section 4.4:
a delete of an already-absent key is a no-op, not an error). -/
def RecordTable.erase : RecordTable → String → RecordTable
  | [], _ => []
  | (k, r) :: rest, key =>
      if k = key then RecordTable.erase rest key
      else (k, r) :: RecordTable.erase rest key

/-- Modelled from the spec: `insert(key, full-record)`, i.e. Python
`data_D[key] = record`, replacing any existing record at that key. -/
def RecordTable.insert (s : RecordTable) (key : String) (r : Record) : RecordTable :=
  (key, r) :: RecordTable.erase s key

/-- Modelled from the spec: membership test `contains(key)`. -/
def RecordTable.contains (s : RecordTable) (key : String) : Bool :=
  (RecordTable.find s key).isSome

/-- Modelled from the spec: `update(key, partial-fields)` / `data_D.modify`, a
partial merge onto the existing record; fields present in the update replace
same-named fields, absent fields are untouched (section 4.2).  In `TomcatLib.py`
every reachable call site has the key present. -/
def RecordTable.modifyR : RecordTable → String → (Record → Record) → RecordTable
  | [], _, _ => []
  | (k, r) :: rest, key, f =>
      if k = key then (k, f r) :: RecordTable.modifyR rest key f
      else (k, r) :: RecordTable.modifyR rest key f

/-- The mutable state of `TomcatWatcher`.  `oldest_start_time` is a Python
`float("inf")` initially, modelled as `none`; every other write to it stores an
integer microsecond timestamp.  `reports` collects the lines printed by the
engine, in order. -/
structure TomcatWatcher where
  window_length_V : Int
  oldest_start_time : Option Int
  newest_stop_time : Int
  history_H : List String
  data_D : RecordTable
  last_key : Option String
  reports : List String
deriving DecidableEq

/-- `TomcatWatcher.__init__(window_length_secs)` for an integral window length,
as instantiated by `watch_tomcat_log.py` (`TomcatWatcher(60, True)`); the
statistics sub-object is an out-of-scope external collaborator and the
`use_timestamps_in_log=True` choice is fixed in `parse_log_line` below. -/
def TomcatWatcher.init (window_length_secs : Int) : TomcatWatcher :=
  { window_length_V := 1000000 * window_length_secs
    oldest_start_time := none
    newest_stop_time := 0
    history_H := []
    data_D := []
    last_key := none
    reports := [] }

/-- Python comparison `self.oldest_start_time > timestamp`, where the left side
may be `float("inf")`. -/
def infGT (oldest : Option Int) (timestamp : Int) : Bool :=
  match oldest with
  | none => true
  | some t => decide (timestamp < t)

/-- Python `current_timespan_usecs > self.window_length_V` for
`current_timespan_usecs = newest_stop_time - oldest_start_time`, which is
`-inf` (never exceeding the window) while `oldest_start_time` is infinite. -/
def spanExceeds (newest : Int) (oldest : Option Int) (window : Int) : Bool :=
  match oldest with
  | none => false
  | some t => decide (window < newest - t)

/-- Python `timestamp_log[:-12]`, the slice handed to `parse_utc_time_usecs`. -/
def pySliceToNeg12 (s : String) : String :=
  String.mk (s.data.take (s.data.length - 12))

/-- The `frontier-id:` complement handling of the start branch
(`TomcatLib.py` lines 153-159): split on `:`; part 0 minus the marker words
becomes `fid`; when more than one part exists, the last part becomes `forward`
if the second-to-last ends with ` x-forwarded-for`, and the middle parts are
rejoined as `via` with `x-forwarded-for` removed. -/
def complementFields (complement : String) :
    List Char × Option (List Char) × Option (List Char) :=
  let parts := splitOnChar ':' complement.data
  let fid := removeSub ' ' "via".data (removeSub ' ' "x-forwarded-for".data (parts.headD []))
  if parts.length > 1 then
    let fwd :=
      if (" x-forwarded-for".data).isSuffixOf (parts.getD (parts.length - 2) [])
      then some (parts.getLastD [])
      else none
    let via := removeSub 'x' "-forwarded-for".data (joinColon ((parts.drop 1).dropLast))
    (fid, fwd, some via)
  else (fid, none, none)

/-- The start branch of `parse_log_line` (`TomcatLib.py` lines 142-163): lower
`oldest_start_time`, build the new record with `state = queued` and
`keepalives = 0`, store it at `key` and append `key` to the History Queue.
Note that this branch returns before `_last_key` is touched. -/
def applyStart (w : TomcatWatcher) (servlet key : String) (timestamp : Int)
    (sm : StartMatch) : TomcatWatcher :=
  let oldest := if infGT w.oldest_start_time timestamp then some timestamp
                else w.oldest_start_time
  let cf := complementFields sm.complement
  let rec0 : Record :=
    { servlet := some servlet
      version := some sm.version
      query := some sm.query
      who := some sm.who
      time_start := some timestamp
      threads_start := some sm.threads_start
      state := some "queued"
      keepalives := some 0
      fid := some (String.mk cf.1)
      forward := cf.2.1.map String.mk
      via := cf.2.2.map String.mk }
  { w with oldest_start_time := oldest
           data_D := RecordTable.insert w.data_D key rec0
           history_H := w.history_H ++ [key] }

/-- `TomcatWatcher.finish_record`: set `time_stop`, `state = finished` and
`finish_mode`, then raise `newest_stop_time` if the timestamp is larger. -/
def finish_record (w : TomcatWatcher) (key : String) (timestamp : Int)
    (finish_mode : String) : TomcatWatcher :=
  let d := RecordTable.modifyR w.data_D key
    (fun r => { r with time_stop := some timestamp
                       state := some "finished"
                       finish_mode := some finish_mode })
  { w with data_D := d
           newest_stop_time :=
             if w.newest_stop_time < timestamp then timestamp
             else w.newest_stop_time }

/-- The payload cascade of `parse_log_line` for a key already present in the
Record Store (`TomcatLib.py` lines 170-242), in the priority order of the source.
The client branch reads the record and reports a conflict when a `client`
message already exists; the store update there is commented out in the source,
as is the final no-match report. -/
def applyKeyed (w : TomcatWatcher) (key : String) (timestamp : Int)
    (payload : String) : TomcatWatcher :=
  match matchDbacq payload with
  | some (a, m) =>
      let d := RecordTable.modifyR w.data_D key (fun r => { r with active_acq := some a, msecs_acq := some m })
      { w with data_D := d }
  | none =>
    match matchDbfin payload with
    | some m =>
        let d := RecordTable.modifyR w.data_D key (fun r => { r with msecs_finish := some m })
        { w with data_D := d }
    | none =>
      match matchRowssize payload with
      | some (n, s) =>
          let d := RecordTable.modifyR w.data_D key (fun r => { r with rows := some n, size := some s })
          { w with data_D := d }
      | none =>
        match matchThreads payload with
        | some (t, m) =>
            let d := RecordTable.modifyR w.data_D key (fun r => { r with msecs_stop := some m, threads_stop := some t })
            finish_record { w with data_D := d } key timestamp "ok"
        | none =>
          match matchSql payload with
          | some q =>
              let d := RecordTable.modifyR w.data_D key (fun r => { r with sql := some q })
              { w with data_D := d }
          | none =>
            match matchAcq payload with
            | some a =>
                let d := RecordTable.modifyR w.data_D key (fun r => { r with dbacq := some a })
                { w with data_D := d }
            | none =>
              if matchExe payload then
                let d := RecordTable.modifyR w.data_D key (fun r => { r with state := some "executing" })
                { w with data_D := d }
              else
                match matchKaacq payload with
                | some n =>
                    let ka := ((RecordTable.find w.data_D key).bind Record.keepalives).getD 0 + n
                    let d := RecordTable.modifyR w.data_D key (fun r => { r with keepalives := some ka })
                    { w with data_D := d }
                | none =>
                  match matchError payload with
                  | some e =>
                      let d := RecordTable.modifyR w.data_D key (fun r => { r with error := some e })
                      { w with data_D := d }
                  | none =>
                    match matchClient payload with
                    | some c =>
                        match (RecordTable.find w.data_D key).bind Record.client with
                        | some old =>
                            let msg1 := String.append (String.append (String.append "Existing client message for id " key) ": ") old
                            let msg2 := String.append "New error: " c
                            { w with reports := w.reports ++ [msg1, msg2] }
                        | none => w
                    | none => w

/-- The routing key of a general-form line: servlet name concatenated with the
id after `id_raw.replace('-ka', '')` (`TomcatLib.py` lines 130-132). -/
def keyOfGeneral (g : GeneralMatch) : String :=
  g.servlet ++ String.mk (replaceKa g.key.data)

/-- `TomcatWatcher.parse_log_line`, with `use_timestamps_in_log = True` as in
`watch_tomcat_log.py`.  Modelled from the spec where `Utils.py` is missing:
`pt` stands for `parse_utc_time_usecs`, the Timestamp Source turning the
log-embedded timestamp text into microseconds.  The `.error` results model the
Python exceptions the corresponding paths raise: in the exception branch the
local `timestamp` was never assigned, so Python raises `UnboundLocalError`. -/
def parse_log_line (pt : String → Int) (w : TomcatWatcher) (line_in : String) :
    Except String TomcatWatcher :=
  let line := pyStrip line_in
  if line = "" then Except.ok w
  else
    match matchGeneral line with
    | some g =>
        let key := keyOfGeneral g
        let timestamp := pt (pySliceToNeg12 g.timestamp)
        match matchStart g.payload with
        | some sm => Except.ok (applyStart w g.servlet key timestamp sm)
        | none =>
            if RecordTable.contains w.data_D key then
              Except.ok (applyKeyed { w with last_key := some key } key timestamp g.payload)
            else Except.ok w
    | none =>
        if listContainsSub "xception".data line.data then
          match w.last_key with
          | some _ =>
              Except.error "UnboundLocalError: local variable timestamp referenced before assignment"
          | none => Except.ok w
        else if ("at ".data).isPrefixOf line.data then Except.ok w
        else Except.ok { w with reports := w.reports ++ [String.append "Unforseen line: " line] }

/-- The eviction loop of `TomcatWatcher.update` (`TomcatLib.py` lines 270-275).
The `while` condition tests only the span, so popping from an exhausted deque
raises `IndexError`; `render_record` on an absent key is modelled from the spec
(section 4.4: `get-field` fails if the key is absent). -/
def evictLoop (newest window : Int) :
    List String → RecordTable → Option Int →
    Except String (List String × RecordTable × Option Int)
  | hist, store, oldest =>
    if spanExceeds newest oldest window then
      match hist with
      | [] => Except.error "IndexError: pop from an empty deque"
      | k :: rest =>
          match (RecordTable.find store k).bind Record.time_start with
          | some t => evictLoop newest window rest (RecordTable.erase store k) (some t)
          | none => Except.error "KeyError: time_start"
    else Except.ok (hist, store, oldest)

/-- `TomcatWatcher.update`: the Window Evictor pass. -/
def TomcatWatcher.update (w : TomcatWatcher) : Except String TomcatWatcher :=
  match evictLoop w.newest_stop_time w.window_length_V w.history_H w.data_D
      w.oldest_start_time with
  | Except.ok (h, d, o) =>
      Except.ok { w with history_H := h, data_D := d, oldest_start_time := o }
  | Except.error e => Except.error e

/-- `TomcatWatcher.advance_records`: parse one line, then run the Evictor. -/
def advance_records (pt : String → Int) (w : TomcatWatcher) (line_in : String) :
    Except String TomcatWatcher :=
  match parse_log_line pt w line_in with
  | Except.ok w1 => TomcatWatcher.update w1
  | Except.error e => Except.error e

/-- Feed a sequence of lines through `advance_records`, stopping at the first
uncaught Python exception (the entry script installs no handler around
`tw.advance_records`). -/
def runLines (pt : String → Int) (w : TomcatWatcher) : List String → Except String TomcatWatcher
  | [] => Except.ok w
  | l :: ls =>
      match advance_records pt w l with
      | Except.ok w1 => runLines pt w1 ls
      | Except.error e => Except.error e

/-- Modelled from the spec: a concrete Timestamp Source for the test scenarios,
standing in for `parse_utc_time_usecs` (Utils.py, not under src/), which turns
the sliced log timestamp text into microseconds. -/
def ptTest : String → Int := fun s =>
  if s = "08/05/13 00:00:00.000" then 0
  else if s = "08/05/13 00:00:01.000" then 1000000
  else if s = "08/05/13 00:00:02.000" then 2000000
  else if s = "08/05/13 00:00:08.000" then 8000000
  else if s = "08/05/13 00:00:09.000" then 9000000
  else if s = "08/05/13 00:00:12.000" then 12000000
  else if s = "08/05/13 00:00:20.000" then 20000000
  else 0

/-- A well-formed start line for servlet FrontierPrep, id 293476, at t = 0. -/
def startLine293476 : String :=
  "FrontierPrep 08/05/13 00:00:00.000 CEST +0200 id=293476 servlet_version:3.30 start threads:1 query /type=frontier_request:1:DEFAULT raddr 127.0.0.1 frontier-id: CMSSW"

/-- An unkeyed line unrelated to any request. -/
def noiseLine : String := "some unrelated noise"

/-- The failure-trace header line from the module docstring. -/
def excLine : String := "java.lang.Exception: X-frontier-id header missing"

/-- A keyed line for id 293476 at t = 1 s whose payload matches none of the
payload patterns. -/
def junkKeyedLine : String :=
  "FrontierPrep 08/05/13 00:00:01.000 CEST +0200 id=293476 zzz unrecognized payload"

/-- A stop line for id 293476 at t = 1 s. -/
def stopLine1 : String :=
  "FrontierPrep 08/05/13 00:00:01.000 CEST +0200 id=293476 stop threads=1 msecs=120"

/-- An `Executing DB query` line for id 293476 at t = 2 s. -/
def exeLine2 : String :=
  "FrontierPrep 08/05/13 00:00:02.000 CEST +0200 id=293476 Executing DB query"

/-- A first client-diagnostic line for id 293476 at t = 1 s. -/
def clientLine1 : String :=
  "FrontierPrep 08/05/13 00:00:01.000 CEST +0200 id=293476 Client disconnected while processing"

/-- A second client-diagnostic line for id 293476 at t = 2 s. -/
def clientLine2 : String :=
  "FrontierPrep 08/05/13 00:00:02.000 CEST +0200 id=293476 Client aborted again"

/-- A stop line for id 293476 at t = 20 s. -/
def stopLine20 : String :=
  "FrontierPrep 08/05/13 00:00:20.000 CEST +0200 id=293476 stop threads=1 msecs=120"

/-- A start line whose id contains `-ka` in its interior: `2-ka93`. -/
def kaStartLine : String :=
  "FrontierPrep 08/05/13 00:00:00.000 CEST +0200 id=2-ka93 servlet_version:3.30 start threads:1 query /q raddr 127.0.0.1 frontier-id: CMSSW"

/-- Start line for id A at t = 0. -/
def startLineA : String :=
  "FrontierPrep 08/05/13 00:00:00.000 CEST +0200 id=A servlet_version:3.30 start threads:1 query /qa raddr 127.0.0.1 frontier-id: CMSSW"

/-- Start line for id B at t = 8 s. -/
def startLineB : String :=
  "FrontierPrep 08/05/13 00:00:08.000 CEST +0200 id=B servlet_version:3.30 start threads:1 query /qb raddr 127.0.0.1 frontier-id: CMSSW"

/-- Start line for id C at t = 9 s. -/
def startLineC : String :=
  "FrontierPrep 08/05/13 00:00:09.000 CEST +0200 id=C servlet_version:3.30 start threads:1 query /qc raddr 127.0.0.1 frontier-id: CMSSW"

/-- Stop line for id C at t = 12 s. -/
def stopLineC : String :=
  "FrontierPrep 08/05/13 00:00:12.000 CEST +0200 id=C stop threads=1 msecs=120"

/-- The queued record created by `startLine293476`. -/
def recQueued293476 : Record :=
  { servlet := some "FrontierPrep", version := some "3.30",
    query := some "/type=frontier_request:1:DEFAULT", who := some "127.0.0.1",
    fid := some "CMSSW", state := some "queued", threads_start := some 1,
    keepalives := some 0, time_start := some 0 }

/-- `recQueued293476` after the normal finish driven by `stopLine1`. -/
def recFinished293476 : Record :=
  { recQueued293476 with
      state := some "finished"
      finish_mode := some "ok"
      threads_stop := some 1
      msecs_stop := some 120
      time_stop := some 1000000 }

/-- `recFinished293476` after a later `Executing DB query` line. -/
def recExec293476 : Record :=
  { recFinished293476 with state := some "executing" }

/-- The watcher state after ingesting only `startLine293476` (60 s window). -/
def wAfterStart : TomcatWatcher :=
  { window_length_V := 60000000, oldest_start_time := some 0,
    newest_stop_time := 0, history_H := ["FrontierPrep293476"],
    data_D := [("FrontierPrep293476", recQueued293476)],
    last_key := none, reports := [] }

/-- The watcher state after `wAfterStart` ingests `stopLine1`. -/
def wAfterStop : TomcatWatcher :=
  { wAfterStart with
      newest_stop_time := 1000000
      data_D := [("FrontierPrep293476", recFinished293476)]
      last_key := some "FrontierPrep293476" }

/-- The watcher state after `wAfterStop` ingests `exeLine2`. -/
def wAfterExe : TomcatWatcher :=
  { wAfterStop with data_D := [("FrontierPrep293476", recExec293476)] }

/-- The watcher state after `wAfterStart` ingests a keyed line whose payload
leaves the store untouched (`junkKeyedLine`, `clientLine1`, `clientLine2`):
only the last active key is set. -/
def wAfterKeyedNoop : TomcatWatcher :=
  { wAfterStart with last_key := some "FrontierPrep293476" }

/-- The queued records of the eviction scenario (ids A, B, C; 10 s window). -/
def recA : Record := { recQueued293476 with query := some "/qa" }

/-- Record B, started at t = 8 s. -/
def recB : Record :=
  { recQueued293476 with
      query := some "/qb"
      time_start := some 8000000 }

/-- Record C, started at t = 9 s. -/
def recC : Record :=
  { recQueued293476 with
      query := some "/qc"
      time_start := some 9000000 }

/-- Record C after its stop at t = 12 s. -/
def recCFin : Record :=
  { recC with
      state := some "finished"
      finish_mode := some "ok"
      threads_stop := some 1
      msecs_stop := some 120
      time_stop := some 12000000 }

/-- Eviction scenario: state after `startLineA`. -/
def w4A : TomcatWatcher :=
  { window_length_V := 10000000, oldest_start_time := some 0,
    newest_stop_time := 0, history_H := ["FrontierPrepA"],
    data_D := [("FrontierPrepA", recA)], last_key := none, reports := [] }

/-- Eviction scenario: state after `startLineA`, `startLineB`. -/
def w4AB : TomcatWatcher :=
  { w4A with
      history_H := ["FrontierPrepA", "FrontierPrepB"]
      data_D := [("FrontierPrepB", recB), ("FrontierPrepA", recA)] }

/-- Eviction scenario: state after `startLineA`, `startLineB`, `startLineC`. -/
def w4ABC : TomcatWatcher :=
  { w4AB with
      history_H := ["FrontierPrepA", "FrontierPrepB", "FrontierPrepC"]
      data_D := [("FrontierPrepC", recC), ("FrontierPrepB", recB), ("FrontierPrepA", recA)] }

/-- Eviction scenario: state after `stopLineC` finishes C at t = 12 s and the
Evictor drops A and B; `oldest_start_time` ends at the deleted B record's
`time_start`. -/
def w4Final : TomcatWatcher :=
  { window_length_V := 10000000, oldest_start_time := some 8000000,
    newest_stop_time := 12000000, history_H := ["FrontierPrepC"],
    data_D := [("FrontierPrepC", recCFin)],
    last_key := some "FrontierPrepC", reports := [] }

/-- The concrete `GeneralMatch` produced by `stopLine1`. -/
def gStop1 : GeneralMatch :=
  { servlet := "FrontierPrep"
    timestamp := "08/05/13 00:00:01.000 CEST +0200 "
    key := "293476"
    payload := "stop threads=1 msecs=120" }

/-- The concrete `GeneralMatch` produced by `junkKeyedLine`. -/
def gJunk : GeneralMatch :=
  { servlet := "FrontierPrep"
    timestamp := "08/05/13 00:00:01.000 CEST +0200 "
    key := "293476"
    payload := "zzz unrecognized payload" }

/-- The concrete `GeneralMatch` produced by `clientLine1`. -/
def gClient1 : GeneralMatch :=
  { servlet := "FrontierPrep"
    timestamp := "08/05/13 00:00:01.000 CEST +0200 "
    key := "293476"
    payload := "Client disconnected while processing" }

/-- The concrete `GeneralMatch` produced by `kaStartLine`. -/
def gKaStart : GeneralMatch :=
  { servlet := "FrontierPrep"
    timestamp := "08/05/13 00:00:00.000 CEST +0200 "
    key := "2-ka93"
    payload := "servlet_version:3.30 start threads:1 query /q raddr 127.0.0.1 frontier-id: CMSSW" }

/-- The `StartMatch` contained in the payload of `kaStartLine`. -/
def smKaStart : StartMatch :=
  { version := "3.30", threads_start := 1, query := "/q", who := "127.0.0.1",
    complement := "CMSSW" }

/-- The record created by `kaStartLine`, stored under key `FrontierPrep293`. -/
def rec293 : Record := { recQueued293476 with query := some "/q" }

/-- The watcher state after `TomcatWatcher.init 60` parses `kaStartLine`. -/
def wAfterKaStart : TomcatWatcher :=
  { window_length_V := 60000000, oldest_start_time := some 0,
    newest_stop_time := 0, history_H := ["FrontierPrep293"],
    data_D := [("FrontierPrep293", rec293)], last_key := none, reports := [] }

/-- The eviction scenario state right after `stopLineC` is parsed, before the
Evictor pass runs. -/
def w4PreEvict : TomcatWatcher :=
  { w4ABC with
      newest_stop_time := 12000000
      data_D := [("FrontierPrepC", recCFin), ("FrontierPrepB", recB), ("FrontierPrepA", recA)]
      last_key := some "FrontierPrepC" }

/-- A payload on which every one of the eleven payload matchers of
`parse_log_line` fails. -/
def noPayloadMatch (p : String) : Prop :=
  matchStart p = none ∧ matchDbacq p = none ∧ matchDbfin p = none ∧
  matchRowssize p = none ∧ matchThreads p = none ∧ matchSql p = none ∧
  matchAcq p = none ∧ matchExe p = false ∧ matchKaacq p = none ∧
  matchError p = none ∧ matchClient p = none

/-- A payload on which every matcher tried before the client pattern fails
(so the client branch of the cascade is reached). -/
def noMatchBeforeClient (p : String) : Prop :=
  matchStart p = none ∧ matchDbacq p = none ∧ matchDbfin p = none ∧
  matchRowssize p = none ∧ matchThreads p = none ∧ matchSql p = none ∧
  matchAcq p = none ∧ matchExe p = false ∧ matchKaacq p = none ∧
  matchError p = none

/-- The window invariant claimed by the spec: the retained span
`newest_stop_time - oldest_start_time` does not exceed the configured window
length.  While `oldest_start_time` is still `float("inf")` (modelled `none`)
the span is `-inf` and trivially fits. -/
def spanFits (w : TomcatWatcher) : Prop :=
  match w.oldest_start_time with
  | none => True
  | some t => w.newest_stop_time - t ≤ w.window_length_V

/-- Every record held in the store has a `state` field equal to one of the
three lifecycle literals of `TomcatWatcher` (`status_queued`, `status_exec`,
`status_stop`). -/
def statesOK (s : RecordTable) : Prop :=
  ∀ k r, RecordTable.find s k = some r →
    r.state = some "queued" ∨ r.state = some "executing" ∨ r.state = some "finished"

theorem RT_find_erase (s : RecordTable) (k k' : String) :
    RecordTable.find (RecordTable.erase s k) k' =
      if k' = k then none else RecordTable.find s k' := by
  induction s with
  | nil => simp [RecordTable.erase, RecordTable.find]
  | cons p rest ih =>
      obtain ⟨a, r⟩ := p
      by_cases hak : a = k
      · subst hak
        simp only [RecordTable.erase, if_pos rfl, ih, RecordTable.find]
        by_cases hk : k' = a
        · subst hk; simp [ih]
        · simp [ih, hk, Ne.symm hk]
      · simp only [RecordTable.erase, if_neg hak, RecordTable.find, ih]
        by_cases hk : k' = k
        · subst hk
          have hak' : ¬ a = k' := hak
          simp [hak']
        · simp [hk]

theorem RT_find_insert (s : RecordTable) (k : String) (r : Record) (k' : String) :
    RecordTable.find (RecordTable.insert s k r) k' =
      if k' = k then some r else RecordTable.find s k' := by
  by_cases hk : k' = k
  · subst hk; simp [RecordTable.insert, RecordTable.find]
  · simp [RecordTable.insert, RecordTable.find, RT_find_erase, hk, Ne.symm hk]

theorem RT_find_modifyR (s : RecordTable) (k : String) (f : Record → Record) (k' : String) :
    RecordTable.find (RecordTable.modifyR s k f) k' =
      if k' = k then (RecordTable.find s k').map f else RecordTable.find s k' := by
  induction s with
  | nil => simp [RecordTable.modifyR, RecordTable.find]
  | cons p rest ih =>
      obtain ⟨a, r⟩ := p
      by_cases hak : a = k
      · subst hak
        simp only [RecordTable.modifyR, if_pos rfl, RecordTable.find, ih]
        by_cases hk : a = k'
        · subst hk; simp
        · simp [hk, Ne.symm hk]
      · simp only [RecordTable.modifyR, if_neg hak, RecordTable.find, ih]
        by_cases hk : a = k'
        · subst hk
          simp [hak, Ne.symm hak]
        · simp [hk]

theorem applyKeyed_last_key (w : TomcatWatcher) (key : String) (timestamp : Int)
    (payload : String) :
    (applyKeyed w key timestamp payload).last_key = w.last_key := by
  unfold applyKeyed finish_record
  repeat' split
  all_goals rfl

theorem applyKeyed_history (w : TomcatWatcher) (key : String) (timestamp : Int)
    (payload : String) :
    (applyKeyed w key timestamp payload).history_H = w.history_H := by
  unfold applyKeyed finish_record
  repeat' split
  all_goals rfl

theorem applyKeyed_oldest (w : TomcatWatcher) (key : String) (timestamp : Int)
    (payload : String) :
    (applyKeyed w key timestamp payload).oldest_start_time = w.oldest_start_time := by
  unfold applyKeyed finish_record
  repeat' split
  all_goals rfl

theorem applyKeyed_window (w : TomcatWatcher) (key : String) (timestamp : Int)
    (payload : String) :
    (applyKeyed w key timestamp payload).window_length_V = w.window_length_V := by
  unfold applyKeyed finish_record
  repeat' split
  all_goals rfl

theorem matchGeneral_ne_empty (s : String) (g : GeneralMatch)
    (h : matchGeneral s = some g) : ¬ s = "" := by
  intro he
  rw [he] at h
  exact Option.noConfusion h

theorem evictLoop_ok_span (newest window : Int) (hist : List String) :
    ∀ (store : RecordTable) (oldest : Option Int) (h' : List String)
      (s' : RecordTable) (o' : Option Int),
      evictLoop newest window hist store oldest = Except.ok (h', s', o') →
      spanExceeds newest o' window = false := by
  induction hist with
  | nil =>
      intro store oldest h' s' o' h
      rw [evictLoop] at h
      by_cases hb : spanExceeds newest oldest window = true
      · rw [if_pos hb] at h
        exact Except.noConfusion h
      · rw [if_neg hb] at h
        cases h
        simpa using hb
  | cons k rest ih =>
      intro store oldest h' s' o' h
      rw [evictLoop] at h
      by_cases hb : spanExceeds newest oldest window = true
      · rw [if_pos hb] at h
        cases hr : (RecordTable.find store k).bind Record.time_start with
        | some t =>
            rw [hr] at h
            exact ih (RecordTable.erase store k) (some t) h' s' o' h
        | none =>
            rw [hr] at h
            exact Except.noConfusion h
      · rw [if_neg hb] at h
        cases h
        simpa using hb

theorem evictLoop_ok_cases (newest window : Int) (hist : List String) :
    ∀ (store : RecordTable) (oldest : Option Int) (h' : List String)
      (s' : RecordTable) (o' : Option Int),
      evictLoop newest window hist store oldest = Except.ok (h', s', o') →
      (h' = hist ∧ s' = store ∧ o' = oldest) ∨
      ∃ k r, RecordTable.find store k = some r ∧ o' = r.time_start ∧
        RecordTable.find s' k = none := by
  induction hist with
  | nil =>
      intro store oldest h' s' o' h
      rw [evictLoop] at h
      by_cases hb : spanExceeds newest oldest window = true
      · rw [if_pos hb] at h; exact Except.noConfusion h
      · rw [if_neg hb] at h; cases h; exact Or.inl ⟨rfl, rfl, rfl⟩
  | cons k rest ih =>
      intro store oldest h' s' o' h
      rw [evictLoop] at h
      by_cases hb : spanExceeds newest oldest window = true
      · rw [if_pos hb] at h
        cases hr : (RecordTable.find store k).bind Record.time_start with
        | some t =>
            rw [hr] at h
            obtain ⟨r, hfind, hts⟩ :
                ∃ r, RecordTable.find store k = some r ∧ r.time_start = some t := by
              cases hf : RecordTable.find store k with
              | none => rw [hf] at hr; simp at hr
              | some r => rw [hf] at hr; exact ⟨r, rfl, hr⟩
            rcases ih (RecordTable.erase store k) (some t) h' s' o' h with h1 | h2
            · obtain ⟨rfl, rfl, rfl⟩ := h1
              refine Or.inr ⟨k, r, hfind, hts.symm, ?_⟩
              rw [RT_find_erase]; simp
            · obtain ⟨k2, r2, hf2, ho2, hn2⟩ := h2
              refine Or.inr ⟨k2, r2, ?_, ho2, hn2⟩
              rw [RT_find_erase] at hf2
              by_cases hkk : k2 = k
              · rw [if_pos hkk] at hf2; exact Option.noConfusion hf2
              · rwa [if_neg hkk] at hf2
        | none => rw [hr] at h; exact Except.noConfusion h
      · rw [if_neg hb] at h; cases h; exact Or.inl ⟨rfl, rfl, rfl⟩

/-- C1: for every run of the Window Evictor that completes
(`TomcatWatcher.update` returns without raising), either the History Queue is
empty or `newest_stop_time - oldest_start_time` is at most the configured
window length; the loop in fact only exits with the span within the window. -/
theorem tomcat_c1_window_invariant (w w' : TomcatWatcher)
    (h : TomcatWatcher.update w = Except.ok w') :
    w'.history_H = [] ∨ spanFits w' := by
  refine Or.inr ?_
  unfold TomcatWatcher.update at h
  cases he : evictLoop w.newest_stop_time w.window_length_V w.history_H w.data_D
      w.oldest_start_time with
  | error e => rw [he] at h; exact Except.noConfusion h
  | ok triple =>
      obtain ⟨h1, s1, o1⟩ := triple
      rw [he] at h
      cases h
      have hs := evictLoop_ok_span _ _ _ _ _ _ _ _ he
      cases o1 with
      | none => trivial
      | some t =>
          have : ¬ w.window_length_V < w.newest_stop_time - t := by
            simpa [spanExceeds] using hs
          show w.newest_stop_time - t ≤ w.window_length_V
          omega

/-- Witness for C1 at a concrete input, the freshly initialised watcher. -/
theorem tomcat_c1_window_invariant_witness :
    (TomcatWatcher.init 60).history_H = [] ∨ spanFits (TomcatWatcher.init 60) :=
  tomcat_c1_window_invariant (TomcatWatcher.init 60) (TomcatWatcher.init 60) rfl

/-- C3 fails on the code: with a 10 s window, a single request that starts at
t = 0 and stops at t = 20 s drives the span over the window, the loop evicts
the only queued key, and the next iteration pops from the now-empty deque and
raises IndexError; the while condition never tests queue non-emptiness. -/
theorem tomcat_c3_evictor_indexerror :
    runLines ptTest (TomcatWatcher.init 10) [startLine293476, stopLine20] =
      Except.error "IndexError: pop from an empty deque" := rfl

/-- C2 fails on the code, in both readings of the scenario: with an unkeyed
unrelated line, the start line never updates the last active key (the start
branch returns first), so the trace is dropped and the record stays queued
with no finish mode; with an intervening keyed line for the same id (which
does set the last active key), the exception branch references the unassigned
local `timestamp` and raises UnboundLocalError instead of finishing. -/
theorem tomcat_c2_trace_correlation_bug :
    Except.map (fun w =>
        ((RecordTable.find w.data_D "FrontierPrep293476").bind Record.state,
         (RecordTable.find w.data_D "FrontierPrep293476").bind Record.finish_mode,
         w.last_key))
      (runLines ptTest (TomcatWatcher.init 60) [startLine293476, noiseLine, excLine]) =
      Except.ok (some "queued", none, none) ∧
    runLines ptTest (TomcatWatcher.init 60) [startLine293476, junkKeyedLine, excLine] =
      Except.error "UnboundLocalError: local variable timestamp referenced before assignment" :=
  ⟨rfl, rfl⟩

/-- One ingestion step: the start line creates the queued record. -/
theorem step_start60 :
    advance_records ptTest (TomcatWatcher.init 60) startLine293476 =
      Except.ok wAfterStart := rfl

/-- One ingestion step: the stop line finishes the record normally. -/
theorem step_stop :
    advance_records ptTest wAfterStart stopLine1 = Except.ok wAfterStop := rfl

/-- One ingestion step: `Executing DB query` after the finish. -/
theorem step_exe :
    advance_records ptTest wAfterStop exeLine2 = Except.ok wAfterExe := rfl

/-- One ingestion step: an unrecognized keyed payload only sets the last
active key. -/
theorem step_junk :
    advance_records ptTest wAfterStart junkKeyedLine = Except.ok wAfterKeyedNoop := rfl

/-- One ingestion step: a first client line stores nothing. -/
theorem step_client1 :
    advance_records ptTest wAfterStart clientLine1 = Except.ok wAfterKeyedNoop := rfl

/-- One ingestion step: a second client line still stores and reports nothing. -/
theorem step_client2 :
    advance_records ptTest wAfterKeyedNoop clientLine2 = Except.ok wAfterKeyedNoop := rfl

/-- Eviction scenario, step 1: start A at t = 0. -/
theorem step_evA :
    advance_records ptTest (TomcatWatcher.init 10) startLineA = Except.ok w4A := rfl

/-- Eviction scenario, step 2: start B at t = 8 s. -/
theorem step_evB :
    advance_records ptTest w4A startLineB = Except.ok w4AB := rfl

/-- Eviction scenario, step 3: start C at t = 9 s. -/
theorem step_evC :
    advance_records ptTest w4AB startLineC = Except.ok w4ABC := rfl

/-- Eviction scenario, step 4: stop C at t = 12 s; the Evictor drops A and B. -/
theorem step_evStop :
    advance_records ptTest w4ABC stopLineC = Except.ok w4Final := rfl


/-- C4 counterexample: with a 10 s window, after starts at t = 0 (A), 8 s (B),
9 s (C) and a stop for C at t = 12 s, the eviction pass drops A and B and ends
with `oldest_start_time = 8000000`, the `time_start` of the deleted record B,
while the only retained record C has `time_start = 9000000`. -/
theorem tomcat_c4_counterexample :
    Except.map (fun w =>
        (w.oldest_start_time,
         w.data_D.map Prod.fst,
         (RecordTable.find w.data_D "FrontierPrepC").bind Record.time_start,
         w.history_H))
      (runLines ptTest (TomcatWatcher.init 10)
        [startLineA, startLineB, startLineC, stopLineC]) =
      Except.ok (some 8000000, ["FrontierPrepC"], some 9000000, ["FrontierPrepC"]) := by
  simp only [runLines, step_evA, step_evB, step_evC, step_evStop]
  rfl

/-- C5 counterexample: after ingesting only a start line, the most recent
successfully matched general-form keyed line is that start line and its key is
present in the Record Store, yet the last active key is still `none` (the
start branch returns before `_last_key` is assigned). -/
theorem tomcat_c5_counterexample :
    Except.map (fun w => (w.last_key, RecordTable.contains w.data_D "FrontierPrep293476"))
      (runLines ptTest (TomcatWatcher.init 60) [startLine293476]) =
      Except.ok (none, true) :=
  rfl

/-- C7 counterexample: a record finished by a stop line moves back to
`executing` when a later `Executing DB query` line arrives for its key. -/
theorem tomcat_c7_counterexample :
    Except.map (fun w => (RecordTable.find w.data_D "FrontierPrep293476").bind Record.state)
      (runLines ptTest (TomcatWatcher.init 60) [startLine293476, stopLine1]) =
      Except.ok (some "finished") ∧
    Except.map (fun w => (RecordTable.find w.data_D "FrontierPrep293476").bind Record.state)
      (runLines ptTest (TomcatWatcher.init 60) [startLine293476, stopLine1, exeLine2]) =
      Except.ok (some "executing") := by
  refine ⟨?_, ?_⟩ <;> simp only [runLines, step_start60, step_stop, step_exe] <;> rfl

/-- C8 counterexample: a start line with id `2-ka93` (interior `-ka`, not a
suffix) creates its record under key `FrontierPrep293`, not under
`FrontierPrep2-ka93` as the claim requires. -/
theorem tomcat_c8_counterexample :
    Except.map (fun w =>
        (RecordTable.contains w.data_D "FrontierPrep293",
         RecordTable.contains w.data_D "FrontierPrep2-ka93",
         w.history_H))
      (runLines ptTest (TomcatWatcher.init 60) [kaStartLine]) =
      Except.ok (true, false, ["FrontierPrep293"]) :=
  rfl

/-- C9 counterexample: after a first and a second client-diagnostic line for a
known key, no client message was ever recorded on the record (the store update
is commented out in the source) and no conflict was reported. -/
theorem tomcat_c9_counterexample :
    Except.map (fun w =>
        ((RecordTable.find w.data_D "FrontierPrep293476").bind Record.client, w.reports))
      (runLines ptTest (TomcatWatcher.init 60) [startLine293476, clientLine1, clientLine2]) =
      Except.ok (none, []) := by
  simp only [runLines, step_start60, step_client1, step_client2]
  rfl

/-- C10 counterexample: a payload matching none of the eleven patterns for a
key present in the Record Store produces no report at all (the no-match print
is commented out in the source); the line is silently dropped. -/
theorem tomcat_c10_counterexample :
    Except.map (fun w =>
        (w.reports,
         (RecordTable.find w.data_D "FrontierPrep293476").bind Record.state,
         w.last_key))
      (runLines ptTest (TomcatWatcher.init 60) [startLine293476, junkKeyedLine]) =
      Except.ok ([], some "queued", some "FrontierPrep293476") := by
  simp only [runLines, step_start60, step_junk]
  rfl

/-- C4 amended: after an eviction pass completes, either nothing was evicted
and the state is unchanged, or `oldest_start_time` equals the `time_start` of
the most recently popped key — a record that has been deleted from the Record
Store — rather than the smallest `time_start` among retained records. -/
theorem tomcat_c4_amended (w w' : TomcatWatcher)
    (h : TomcatWatcher.update w = Except.ok w') :
    w' = w ∨
    ∃ k r, RecordTable.find w.data_D k = some r ∧
      w'.oldest_start_time = r.time_start ∧
      RecordTable.find w'.data_D k = none := by
  unfold TomcatWatcher.update at h
  cases he : evictLoop w.newest_stop_time w.window_length_V w.history_H w.data_D
      w.oldest_start_time with
  | error e => rw [he] at h; exact Except.noConfusion h
  | ok triple =>
      obtain ⟨h1, s1, o1⟩ := triple
      rw [he] at h
      cases h
      rcases evictLoop_ok_cases _ _ _ _ _ _ _ _ he with ⟨rfl, rfl, rfl⟩ | ⟨k, r, hf, ho, hn⟩
      · exact Or.inl rfl
      · exact Or.inr ⟨k, r, hf, ho, hn⟩

/-- Witness for C4 amended at a concrete input: the Evictor pass following
`stopLineC` pops A and B, and `oldest_start_time` ends at the `time_start` of B
with B deleted. -/
theorem tomcat_c4_amended_witness :
    w4Final = w4PreEvict ∨
    ∃ k r, RecordTable.find w4PreEvict.data_D k = some r ∧
      w4Final.oldest_start_time = r.time_start ∧
      RecordTable.find w4Final.data_D k = none :=
  tomcat_c4_amended w4PreEvict w4Final rfl

/-- C5 amended: processing a line leaves the last active key unchanged unless
the line is general-form, its payload does not match the start pattern, and
its routing key is present in the Record Store, in which case the last active
key becomes that key.  In particular start lines never update it. -/
theorem tomcat_c5_amended (pt : String → Int) (w : TomcatWatcher) (line : String)
    (w' : TomcatWatcher) (h : parse_log_line pt w line = Except.ok w') :
    w'.last_key = w.last_key ∨
    ∃ g, matchGeneral (pyStrip line) = some g ∧ matchStart g.payload = none ∧
      RecordTable.contains w.data_D (keyOfGeneral g) = true ∧
      w'.last_key = some (keyOfGeneral g) := by
  simp only [parse_log_line] at h
  by_cases he : pyStrip line = ""
  · rw [if_pos he] at h; cases h; exact Or.inl rfl
  · rw [if_neg he] at h
    cases hg : matchGeneral (pyStrip line) with
    | some g =>
        rw [hg] at h
        simp only [] at h
        cases hs : matchStart g.payload with
        | some sm => rw [hs] at h; simp only [] at h; cases h; exact Or.inl rfl
        | none =>
            rw [hs] at h; simp only [] at h
            by_cases hk : RecordTable.contains w.data_D (keyOfGeneral g) = true
            · rw [if_pos hk] at h
              cases h
              refine Or.inr ⟨g, rfl, hs, hk, ?_⟩
              rw [applyKeyed_last_key]
            · rw [if_neg hk] at h; cases h; exact Or.inl rfl
    | none =>
        rw [hg] at h
        simp only [] at h
        by_cases hx : listContainsSub "xception".data (pyStrip line).data = true
        · rw [if_pos hx] at h
          cases hlk : w.last_key with
          | some k0 => rw [hlk] at h; exact Except.noConfusion h
          | none => rw [hlk] at h; cases h; exact Or.inl hlk
        · rw [if_neg hx] at h
          by_cases ha : List.isPrefixOf "at ".data (pyStrip line).data = true
          · rw [if_pos ha] at h; cases h; exact Or.inl rfl
          · rw [if_neg ha] at h; cases h; exact Or.inl rfl

/-- Witness for C5 amended at a concrete input: the keyed no-op line after the
start line sets the last active key to the known key. -/
theorem tomcat_c5_amended_witness :
    wAfterKeyedNoop.last_key = wAfterStart.last_key ∨
    ∃ g, matchGeneral (pyStrip junkKeyedLine) = some g ∧ matchStart g.payload = none ∧
      RecordTable.contains wAfterStart.data_D (keyOfGeneral g) = true ∧
      wAfterKeyedNoop.last_key = some (keyOfGeneral g) :=
  tomcat_c5_amended ptTest wAfterStart junkKeyedLine wAfterKeyedNoop rfl

/-- C6: a general-form line whose payload is `stop threads=1 msecs=120`, for a
key present in the Record Store, sets `threads_stop = 1`, `msecs_stop = 120`,
`state = finished`, `finish_mode = ok`, and raises `newest_stop_time` to the
timestamp of the line exactly when that timestamp is larger. -/
theorem tomcat_c6_stop_finalization (pt : String → Int) (w : TomcatWatcher)
    (line : String) (g : GeneralMatch) (w' : TomcatWatcher)
    (hG : matchGeneral (pyStrip line) = some g)
    (hP : g.payload = "stop threads=1 msecs=120")
    (hK : RecordTable.contains w.data_D (keyOfGeneral g) = true)
    (h : parse_log_line pt w line = Except.ok w') :
    ∃ r', RecordTable.find w'.data_D (keyOfGeneral g) = some r' ∧
      r'.threads_stop = some 1 ∧ r'.msecs_stop = some 120 ∧
      r'.state = some "finished" ∧ r'.finish_mode = some "ok" ∧
      w'.newest_stop_time =
        (if w.newest_stop_time < pt (pySliceToNeg12 g.timestamp)
         then pt (pySliceToNeg12 g.timestamp) else w.newest_stop_time) := by
  have hne : ¬ pyStrip line = "" := matchGeneral_ne_empty _ _ hG
  have hS : matchStart g.payload = none := by rw [hP]; rfl
  have h1 : matchDbacq g.payload = none := by rw [hP]; rfl
  have h2 : matchDbfin g.payload = none := by rw [hP]; rfl
  have h3 : matchRowssize g.payload = none := by rw [hP]; rfl
  have h4 : matchThreads g.payload = some (1, 120) := by rw [hP]; rfl
  obtain ⟨r0, hr0⟩ : ∃ r0, RecordTable.find w.data_D (keyOfGeneral g) = some r0 := by
    unfold RecordTable.contains at hK
    exact Option.isSome_iff_exists.mp hK
  simp only [parse_log_line] at h
  rw [if_neg hne, hG] at h
  simp only [hS, if_pos hK, applyKeyed, h1, h2, h3, h4, finish_record] at h
  cases h
  refine ⟨{ r0 with
              msecs_stop := some 120, threads_stop := some 1,
              time_stop := some (pt (pySliceToNeg12 g.timestamp)),
              state := some "finished", finish_mode := some "ok" }, ?_, rfl, rfl, rfl, rfl, rfl⟩
  simp [RT_find_modifyR, hr0]

/-- Witness for C6 at a concrete input: `stopLine1` against `wAfterStart`. -/
theorem tomcat_c6_stop_finalization_witness :
    ∃ r', RecordTable.find wAfterStop.data_D (keyOfGeneral gStop1) = some r' ∧
      r'.threads_stop = some 1 ∧ r'.msecs_stop = some 120 ∧
      r'.state = some "finished" ∧ r'.finish_mode = some "ok" ∧
      wAfterStop.newest_stop_time =
        (if wAfterStart.newest_stop_time < ptTest (pySliceToNeg12 gStop1.timestamp)
         then ptTest (pySliceToNeg12 gStop1.timestamp)
         else wAfterStart.newest_stop_time) :=
  tomcat_c6_stop_finalization ptTest wAfterStart stopLine1 gStop1 wAfterStop rfl rfl rfl rfl

/-- C8 amended: the routing key of a general-form line is the servlet name
concatenated with the id after removing every occurrence of the substring
`-ka` (Python `replace`), not only a trailing suffix; in particular a start
line files its record and History Queue entry under that stripped key. -/
theorem tomcat_c8_amended (pt : String → Int) (w : TomcatWatcher) (line : String)
    (g : GeneralMatch) (sm : StartMatch) (w' : TomcatWatcher)
    (hG : matchGeneral (pyStrip line) = some g)
    (hS : matchStart g.payload = some sm)
    (h : parse_log_line pt w line = Except.ok w') :
    RecordTable.contains w'.data_D (g.servlet ++ String.mk (replaceKa g.key.data)) = true ∧
    w'.history_H = w.history_H ++ [g.servlet ++ String.mk (replaceKa g.key.data)] := by
  have hne : ¬ pyStrip line = "" := matchGeneral_ne_empty _ _ hG
  simp only [parse_log_line] at h
  rw [if_neg hne, hG] at h
  simp only [hS] at h
  cases h
  constructor
  · simp [applyStart, RecordTable.contains, RT_find_insert, keyOfGeneral]
  · simp [applyStart, keyOfGeneral]

/-- Witness for C8 amended at a concrete input: the start line with id
`2-ka93` creates its record under `FrontierPrep293`. -/
theorem tomcat_c8_amended_witness :
    RecordTable.contains wAfterKaStart.data_D
      (gKaStart.servlet ++ String.mk (replaceKa gKaStart.key.data)) = true ∧
    wAfterKaStart.history_H = (TomcatWatcher.init 60).history_H ++
      [gKaStart.servlet ++ String.mk (replaceKa gKaStart.key.data)] :=
  tomcat_c8_amended ptTest (TomcatWatcher.init 60) kaStartLine gKaStart smKaStart
    wAfterKaStart rfl rfl rfl

/-- C9 amended: a `Client <text>` payload for a key present in the Record
Store whose record carries no client message (which is every record, since no
code path ever writes one — the store update in the client branch is commented
out) leaves the Record Store and the report stream unchanged and only sets the
last active key; nothing is recorded and no conflict is ever reported. -/
theorem tomcat_c9_amended (pt : String → Int) (w : TomcatWatcher) (line : String)
    (g : GeneralMatch) (msg : String) (w' : TomcatWatcher)
    (hG : matchGeneral (pyStrip line) = some g)
    (hB : noMatchBeforeClient g.payload)
    (hC : matchClient g.payload = some msg)
    (hK : RecordTable.contains w.data_D (keyOfGeneral g) = true)
    (hNone : (RecordTable.find w.data_D (keyOfGeneral g)).bind Record.client = none)
    (h : parse_log_line pt w line = Except.ok w') :
    w' = { w with last_key := some (keyOfGeneral g) } := by
  have hne : ¬ pyStrip line = "" := matchGeneral_ne_empty _ _ hG
  obtain ⟨hS, h1, h2, h3, h4, h5, h6, h7, h8, h9⟩ := hB
  simp only [parse_log_line] at h
  rw [if_neg hne, hG] at h
  simp only [hS, if_pos hK, applyKeyed, h1, h2, h3, h4, h5, h6, h7, h8, h9, hC,
    hNone] at h
  cases h
  rfl

/-- Witness for C9 amended at a concrete input: `clientLine1` against
`wAfterStart`. -/
theorem tomcat_c9_amended_witness :
    wAfterKeyedNoop = { wAfterStart with last_key := some (keyOfGeneral gClient1) } :=
  tomcat_c9_amended ptTest wAfterStart clientLine1 gClient1
    "disconnected while processing" wAfterKeyedNoop rfl
    ⟨rfl, rfl, rfl, rfl, rfl, rfl, rfl, rfl, rfl, rfl⟩ rfl rfl rfl rfl

/-- C10 amended: a general-form line for a key present in the Record Store
whose payload matches none of the eleven payload patterns is silently dropped:
no report is emitted and the Record Store, History Queue and window state are
unchanged; only the last active key is set to the key of the line. -/
theorem tomcat_c10_amended (pt : String → Int) (w : TomcatWatcher) (line : String)
    (g : GeneralMatch) (w' : TomcatWatcher)
    (hG : matchGeneral (pyStrip line) = some g)
    (hN : noPayloadMatch g.payload)
    (hK : RecordTable.contains w.data_D (keyOfGeneral g) = true)
    (h : parse_log_line pt w line = Except.ok w') :
    w' = { w with last_key := some (keyOfGeneral g) } := by
  have hne : ¬ pyStrip line = "" := matchGeneral_ne_empty _ _ hG
  obtain ⟨hS, h1, h2, h3, h4, h5, h6, h7, h8, h9, h10⟩ := hN
  simp only [parse_log_line] at h
  rw [if_neg hne, hG] at h
  simp only [hS, if_pos hK, applyKeyed, h1, h2, h3, h4, h5, h6, h7, h8, h9, h10] at h
  cases h
  rfl

/-- Witness for C10 amended at a concrete input: `junkKeyedLine` against
`wAfterStart`. -/
theorem tomcat_c10_amended_witness :
    wAfterKeyedNoop = { wAfterStart with last_key := some (keyOfGeneral gJunk) } :=
  tomcat_c10_amended ptTest wAfterStart junkKeyedLine gJunk wAfterKeyedNoop rfl
    ⟨rfl, rfl, rfl, rfl, rfl, rfl, rfl, rfl, rfl, rfl, rfl⟩ rfl rfl

theorem statesOK_nil : statesOK [] := by
  intro k r h
  exact Option.noConfusion h

theorem statesOK_erase (s : RecordTable) (k : String) (hs : statesOK s) :
    statesOK (RecordTable.erase s k) := by
  intro k' r h
  rw [RT_find_erase] at h
  by_cases hk : k' = k
  · rw [if_pos hk] at h; exact Option.noConfusion h
  · rw [if_neg hk] at h; exact hs k' r h

theorem statesOK_insert (s : RecordTable) (k : String) (r : Record)
    (hr : r.state = some "queued" ∨ r.state = some "executing" ∨ r.state = some "finished")
    (hs : statesOK s) : statesOK (RecordTable.insert s k r) := by
  intro k' r' h
  rw [RT_find_insert] at h
  by_cases hk : k' = k
  · rw [if_pos hk] at h
    cases h
    exact hr
  · rw [if_neg hk] at h; exact hs k' r' h

theorem statesOK_modifyR (s : RecordTable) (k : String) (f : Record → Record)
    (hf : ∀ r, (f r).state = r.state ∨ (f r).state = some "queued" ∨
      (f r).state = some "executing" ∨ (f r).state = some "finished")
    (hs : statesOK s) : statesOK (RecordTable.modifyR s k f) := by
  intro k' r' h
  rw [RT_find_modifyR] at h
  by_cases hk : k' = k
  · rw [if_pos hk] at h
    cases hfind : RecordTable.find s k' with
    | none => rw [hfind] at h; exact Option.noConfusion h
    | some r0 =>
        rw [hfind] at h
        have hr' : r' = f r0 := by
          have := h.symm
          simpa using this
        subst hr'
        rcases hf r0 with h0 | h0 | h0 | h0
        · rw [h0]; exact hs k' r0 hfind
        · exact Or.inl h0
        · exact Or.inr (Or.inl h0)
        · exact Or.inr (Or.inr h0)
  · rw [if_neg hk] at h; exact hs k' r' h

theorem statesOK_applyStart (w : TomcatWatcher) (servlet key : String)
    (timestamp : Int) (sm : StartMatch) (hs : statesOK w.data_D) :
    statesOK (applyStart w servlet key timestamp sm).data_D := by
  exact statesOK_insert _ _ _ (Or.inl rfl) hs

theorem statesOK_applyKeyed (w : TomcatWatcher) (key : String) (timestamp : Int)
    (payload : String) (hs : statesOK w.data_D) :
    statesOK (applyKeyed w key timestamp payload).data_D := by
  unfold applyKeyed finish_record
  repeat' split
  all_goals
    first
      | exact hs
      | exact statesOK_modifyR _ _ _ (fun r => Or.inl rfl) hs
      | exact statesOK_modifyR _ _ _ (fun r => Or.inr (Or.inr (Or.inl rfl))) hs
      | exact statesOK_modifyR _ _ _ (fun r => Or.inr (Or.inr (Or.inr rfl)))
          (statesOK_modifyR _ _ _ (fun r => Or.inl rfl) hs)

theorem statesOK_parse (pt : String → Int) (w : TomcatWatcher) (line : String)
    (w' : TomcatWatcher) (hs : statesOK w.data_D)
    (h : parse_log_line pt w line = Except.ok w') : statesOK w'.data_D := by
  simp only [parse_log_line] at h
  by_cases he : pyStrip line = ""
  · rw [if_pos he] at h; cases h; exact hs
  · rw [if_neg he] at h
    cases hg : matchGeneral (pyStrip line) with
    | some g =>
        rw [hg] at h
        simp only [] at h
        cases hmS : matchStart g.payload with
        | some sm =>
            rw [hmS] at h; simp only [] at h; cases h
            exact statesOK_applyStart _ _ _ _ _ hs
        | none =>
            rw [hmS] at h; simp only [] at h
            by_cases hk : RecordTable.contains w.data_D (keyOfGeneral g) = true
            · rw [if_pos hk] at h
              cases h
              exact statesOK_applyKeyed _ _ _ _ hs
            · rw [if_neg hk] at h; cases h; exact hs
    | none =>
        rw [hg] at h
        simp only [] at h
        by_cases hx : listContainsSub "xception".data (pyStrip line).data = true
        · rw [if_pos hx] at h
          cases hlk : w.last_key with
          | some k0 => rw [hlk] at h; exact Except.noConfusion h
          | none => rw [hlk] at h; cases h; exact hs
        · rw [if_neg hx] at h
          by_cases ha : List.isPrefixOf "at ".data (pyStrip line).data = true
          · rw [if_pos ha] at h; cases h; exact hs
          · rw [if_neg ha] at h; cases h; exact hs

theorem evictLoop_statesOK (newest window : Int) (hist : List String) :
    ∀ (store : RecordTable) (oldest : Option Int) (h' : List String)
      (s' : RecordTable) (o' : Option Int),
      evictLoop newest window hist store oldest = Except.ok (h', s', o') →
      statesOK store → statesOK s' := by
  induction hist with
  | nil =>
      intro store oldest h' s' o' h hs
      rw [evictLoop] at h
      by_cases hb : spanExceeds newest oldest window = true
      · rw [if_pos hb] at h; exact Except.noConfusion h
      · rw [if_neg hb] at h; cases h; exact hs
  | cons k rest ih =>
      intro store oldest h' s' o' h hs
      rw [evictLoop] at h
      by_cases hb : spanExceeds newest oldest window = true
      · rw [if_pos hb] at h
        cases hr : (RecordTable.find store k).bind Record.time_start with
        | some t =>
            rw [hr] at h
            exact ih (RecordTable.erase store k) (some t) h' s' o' h
              (statesOK_erase store k hs)
        | none => rw [hr] at h; exact Except.noConfusion h
      · rw [if_neg hb] at h; cases h; exact hs

theorem statesOK_advance (pt : String → Int) (w : TomcatWatcher) (line : String)
    (w' : TomcatWatcher) (hs : statesOK w.data_D)
    (h : advance_records pt w line = Except.ok w') : statesOK w'.data_D := by
  unfold advance_records at h
  cases hp : parse_log_line pt w line with
  | error e => rw [hp] at h; exact Except.noConfusion h
  | ok w1 =>
      rw [hp] at h
      simp only [] at h
      have hs1 : statesOK w1.data_D := statesOK_parse pt w line w1 hs hp
      unfold TomcatWatcher.update at h
      cases he : evictLoop w1.newest_stop_time w1.window_length_V w1.history_H
          w1.data_D w1.oldest_start_time with
      | error e => rw [he] at h; exact Except.noConfusion h
      | ok triple =>
          obtain ⟨h1, s1, o1⟩ := triple
          rw [he] at h
          cases h
          exact evictLoop_statesOK _ _ _ _ _ _ _ _ he hs1

theorem runLines_statesOK (pt : String → Int) (lines : List String) :
    ∀ (w w' : TomcatWatcher), statesOK w.data_D →
      runLines pt w lines = Except.ok w' → statesOK w'.data_D := by
  induction lines with
  | nil =>
      intro w w' hs h
      rw [runLines] at h
      cases h
      exact hs
  | cons l ls ih =>
      intro w w' hs h
      rw [runLines] at h
      cases ha : advance_records pt w l with
      | error e => rw [ha] at h; exact Except.noConfusion h
      | ok w1 =>
          rw [ha] at h
          exact ih w1 w' (statesOK_advance pt w l w1 hs ha) h

/-- C7 amended: over every run from a fresh watcher, each record held in the
Record Store has `state` equal to one of `queued`, `executing`, `finished`;
the transitions are driven directly by the payloads with no monotonicity
guard, so a finished record returns to `executing` on a later `Executing DB
query` line (see the counterexample) and a repeated start resets it to
`queued`. -/
theorem tomcat_c7_amended (pt : String → Int) (n : Int) (lines : List String)
    (w : TomcatWatcher) (k : String) (r : Record)
    (h : runLines pt (TomcatWatcher.init n) lines = Except.ok w)
    (hf : RecordTable.find w.data_D k = some r) :
    r.state = some "queued" ∨ r.state = some "executing" ∨ r.state = some "finished" :=
  runLines_statesOK pt lines (TomcatWatcher.init n) w statesOK_nil h k r hf

/-- Witness for C7 amended at a concrete input: the record left by the
start/stop/executing run. -/
theorem tomcat_c7_amended_witness :
    recExec293476.state = some "queued" ∨ recExec293476.state = some "executing" ∨
    recExec293476.state = some "finished" :=
  tomcat_c7_amended ptTest 60 [startLine293476, stopLine1, exeLine2] wAfterExe
    "FrontierPrep293476" recExec293476
    (by simp only [runLines, step_start60, step_stop, step_exe]) rfl
